import Mathlib

/-!
Verification development for the CIS173-Final device-information CLI tool
(`src/main.py`).  The Python script is shallowly embedded: every external
query (clock, hostname resolver, disk statistics, platform identifiers) is a
field of an explicit `Env` record, file and console effects are reified as an
`Event` list, and the `__main__` wrapper is modelled as a total function from
the parsed input, the environment and an interrupt schedule to a `TopOutcome`.
-/

namespace DeviceInfo

/-! ### Python string primitives used by the script -/

/-- Embedding of Python `str.startswith`. -/
def pyStartswith (s pre : String) : Bool :=
  pre.data.isPrefixOf s.data

/-- Embedding of Python `str.lower` (ASCII case folding, which is all the
script ever feeds it: the format names `json`, `jsonl`, `xml`). -/
def strLower (s : String) : String :=
  String.mk (s.data.map Char.toLower)

/-- Whitespace test used by `str.strip`. -/
def isSpaceChar (c : Char) : Bool :=
  (c == ' ') || (c == '\t') || (c == '\n') || (c == '\r')

/-- Embedding of Python `str.strip` (used on the positional output path). -/
def pyStrip (s : String) : String :=
  String.mk (((s.data.dropWhile isSpaceChar).reverse.dropWhile isSpaceChar).reverse)

/-- Substring search on character lists: does `pat` occur inside the list? -/
def hasSubList (pat : List Char) : List Char → Bool
  | [] => pat.isEmpty
  | c :: rest => pat.isPrefixOf (c :: rest) || hasSubList pat rest

/-- Embedding of Python `pat in s` on strings. -/
def hasSubstring (s pat : String) : Bool :=
  hasSubList pat.data s.data

/-- Python truthiness of an optional string (`None` and `""` are falsy),
as used by `if args.output:` and `if args.positional_output ...`. -/
def truthy : Option String → Bool
  | none => false
  | some s => !(s == "")

/-! ### Values and records (Python dict with string keys, preserving
insertion order; the script only ever stores strings and integers) -/

/-- A scalar stored in a device-info dictionary: a string or an integer
(all the integers the script stores are byte counts, hence `Nat`). -/
inductive Value where
  | str : String → Value
  | num : Nat → Value
deriving DecidableEq

/-- Decimal digit character, as produced by Python `str(int)`. -/
def natDigitChar (d : Nat) : Char :=
  Char.ofNat (48 + d)

/-- Fuel-driven decimal printer (structural recursion so that the kernel
can evaluate it). -/
def natToDigitsAux : Nat → Nat → List Char
  | 0, _ => []
  | fuel + 1, n =>
    if n < 10 then [natDigitChar n]
    else natToDigitsAux fuel (n / 10) ++ [natDigitChar (n % 10)]

/-- Decimal rendering of a natural number (Python `str(int)`). -/
def natToDigits (n : Nat) : List Char :=
  natToDigitsAux (n + 1) n

/-- Decimal rendering as a string. -/
def natRepr (n : Nat) : String :=
  String.mk (natToDigits n)

/-- Python `str(value)`, as interpolated into the XML writer's f-string. -/
def Value.render : Value → String
  | .str s => s
  | .num n => natRepr n

/-- A device-info record: insertion-ordered key/value pairs. -/
abbrev Record := List (String × Value)

/-- Dictionary lookup `d[k]` returning the stored value (the script only
indexes keys that are present; a missing key defaults to the empty string). -/
def Record.getV (r : Record) (k : String) : Value :=
  match r.find? (fun kv => kv.1 == k) with
  | some kv => kv.2
  | none => .str ""

/-- Dictionary lookup rendered as a string. -/
def Record.getStr (r : Record) (k : String) : String :=
  (Record.getV r k).render

/-! ### JSON encoding (`json.dumps`, compact and `indent=4` variants) -/

/-- Escape of one character inside a JSON string literal (the cases
`json.dumps` would hit for the values this script produces). -/
def jsonEscapeChar (c : Char) : String :=
  if c = '"' then "\\\""
  else if c = '\\' then "\\\\"
  else if c = '\n' then "\\n"
  else String.singleton c

/-- Escape of a character list for a JSON string literal. -/
def jsonEscapeList : List Char → String
  | [] => ""
  | c :: cs => jsonEscapeChar c ++ jsonEscapeList cs

/-- Escape of a string for a JSON string literal. -/
def jsonEscape (s : String) : String :=
  jsonEscapeList s.data

/-- JSON rendering of a scalar value. -/
def jsonValue : Value → String
  | .str s => "\"" ++ jsonEscape s ++ "\""
  | .num n => natRepr n

/-- JSON rendering of one `"key": value` pair. -/
def jsonPair (kv : String × Value) : String :=
  "\"" ++ jsonEscape kv.1 ++ "\": " ++ jsonValue kv.2

/-- Comma-space join, as `json.dumps` uses between object members. -/
def joinComma : List String → String
  | [] => ""
  | [s] => s
  | s :: ss => s ++ ", " ++ joinComma ss

/-- Compact `json.dumps(data)`: a single-line object in insertion order. -/
def jsonDumps (r : Record) : String :=
  "\x7b" ++ joinComma (r.map jsonPair) ++ "\x7d"

/-- Comma-newline join, as `json.dumps(..., indent=4)` uses between members. -/
def joinCommaNL : List String → String
  | [] => ""
  | [s] => s
  | s :: ss => s ++ ",\n" ++ joinCommaNL ss

/-- Pretty `json.dumps(data, indent=4)`. -/
def jsonDumpsIndent (r : Record) : String :=
  match r with
  | [] => "\x7b\x7d"
  | _ => "\x7b\n" ++ joinCommaNL (r.map (fun kv => "    " ++ jsonPair kv)) ++ "\n\x7d"

/-! ### XML encoding (`export_to_xml` body) -/

/-- The line written for one field: `    <key>value</key>`. -/
def xmlFieldLine (kv : String × Value) : String :=
  "    <" ++ kv.1 ++ ">" ++ kv.2.render ++ "</" ++ kv.1 ++ ">"

/-- Join a list of lines, terminating each with a newline — the
concatenation of the successive `write` calls of the XML exporter. -/
def joinLines : List String → String
  | [] => ""
  | s :: ss => s ++ "\n" ++ joinLines ss

/-- Full XML document produced by `export_to_xml`:
`<device_info>`, one line per field in insertion order, `</device_info>`. -/
def xmlContent (r : Record) : String :=
  joinLines ("<device_info>" :: r.map xmlFieldLine ++ ["</device_info>"])

/-! ### External environment (clock, resolver, disk statistics, platform) -/

/-- One reading of every external collaborator the collector consults.
`resolveIP` is `socket.gethostbyname(socket.gethostname())`: either the
resolved address or a raised exception (carried as its message).
`diskUsage` is `shutil.disk_usage(path)`: either `(total, used, free)`
in bytes or a raised `OSError` (carried as its message). -/
structure Env where
  localtime : String
  gmtime : String
  node : String
  system : String
  release : String
  osver : String
  fqdn : String
  resolveIP : Except String String
  diskUsage : String → Except String (Nat × Nat × Nat)
  machine : String
  processor : String
  pythonVersion : String

/-- The `try`/`except` block at the top of `get_device_info`: resolve the
hostname; on an exception or a `127.`-prefixed result fall back to the
literal `127.0.0.1`. -/
def fallback_ip (r : Except String String) : String :=
  match r with
  | .error _ => "127.0.0.1"
  | .ok ip => if pyStartswith ip "127." then "127.0.0.1" else ip

/-- `get_device_info()`: the basic six-field snapshot, in insertion order. -/
def get_device_info (env : Env) : Record :=
  [("timestamp_local", .str env.localtime),
   ("timestamp_utc", .str env.gmtime),
   ("device_name", .str env.node),
   ("os_version", .str (env.system ++ " " ++ env.release ++ " " ++ env.osver)),
   ("FQDN", .str env.fqdn),
   ("ip_address", .str (fallback_ip env.resolveIP))]

/-- `get_disk_usage(os)`: choose the root by substring match on the OS
string, query it, and build the three disk fields; a raised `OSError`
propagates as the `Except.error` case. -/
def get_disk_usage (env : Env) (os : String) : Except String Record :=
  let path := if hasSubstring os "Windows" then "C:\\" else "/"
  match env.diskUsage path with
  | .error e => .error e
  | .ok (total, used, free) =>
    .ok [("total_disk_space", .num total),
         ("used_disk_space", .num used),
         ("free_disk_space", .num free)]

/-- `get_device_info_extended()`: basic snapshot, then `dict.update` with
the disk fields and the machine/processor/Python-version fields (all keys
are fresh, so `update` appends in insertion order). -/
def get_device_info_extended (env : Env) : Except String Record :=
  let device_info := get_device_info env
  match get_disk_usage env (Record.getStr device_info "os_version") with
  | .error e => .error e
  | .ok disk =>
    .ok (device_info ++ disk ++
      [("machine", .str env.machine),
       ("processor", .str env.processor),
       ("python_version", .str env.pythonVersion)])

/-! ### Command-line arguments -/

/-- The raw values argparse hands to the post-processing in `get_args`:
`format` has already been lowercased by `type=str.lower` and checked
against `choices=["jsonl","json","xml"]` (default `"json"`), and
`-d`/`-c` sit in a mutually exclusive group. -/
structure ArgsInput where
  format : String
  output : Option String
  extra : Bool
  debug : Bool
  continuous : Bool
  positional_output : Option String
deriving DecidableEq

/-- Validity guaranteed by the argparse declaration itself. -/
def ArgsInput.valid (i : ArgsInput) : Prop :=
  (i.format = "json" ∨ i.format = "jsonl" ∨ i.format = "xml") ∧
  ¬(i.debug = true ∧ i.continuous = true)

/-- The namespace `get_args` returns after post-processing. -/
structure Args where
  format : String
  output : Option String
  extra : Bool
  debug : Bool
  continuous : Bool
  positional_output : Option String
deriving DecidableEq

/-- Post-processing at the end of `get_args`: adopt the stripped positional
output when `-o` was not given, force `jsonl` under `--continuous`, and
lowercase the format (it is never `None`, its default is `"json"`). -/
def get_args (i : ArgsInput) : Args :=
  let output :=
    if truthy i.positional_output && !(truthy i.output) then
      i.positional_output.map pyStrip
    else i.output
  let format := if i.continuous then "jsonl" else i.format
  let format := strLower format
  { format := format, output := output, extra := i.extra, debug := i.debug,
    continuous := i.continuous, positional_output := i.positional_output }

/-- Program version string. -/
def VERSION : String := "1.2.1"

/-- The configuration in force from the first collection on: `main` runs
`get_args`, and under `--debug` overwrites `args.output` and `args.format`
before anything is collected or written. -/
def main_effective_args (i : ArgsInput) : Args :=
  let args := get_args i
  if args.debug then
    { args with output := some "debug_output.json", format := "json" }
  else args

/-! ### Effects: console prints and file writes -/

/-- One observable effect: a `print(...)` or a `file.write(...)` performed
through `open(path, mode)` with mode `'w'` (create-or-truncate) or `'a'`
(append). -/
inductive Event where
  | console : String → Event
  | fileWrite : (path : String) → (mode : Char) → (content : String) → Event
deriving DecidableEq

/-- Python `repr` of a boolean. -/
def pyBool : Bool → String
  | true => "True"
  | false => "False"

/-- Python `repr` of an optional string argument value. -/
def pyOptStr : Option String → String
  | none => "None"
  | some s => "\x27" ++ s ++ "\x27"

/-- The six prints of `debug_mode(args)` (run before the debug override). -/
def debug_mode (args : Args) : List Event :=
  [.console "Debug mode is enabled.",
   .console ("Arguments: Namespace(format=" ++ pyOptStr (some args.format) ++
     ", output=" ++ pyOptStr args.output ++
     ", extra=" ++ pyBool args.extra ++
     ", debug=" ++ pyBool args.debug ++
     ", continuous=" ++ pyBool args.continuous ++
     ", positional_output=" ++ pyOptStr args.positional_output ++ ")"),
   .console ("Format: " ++ args.format),
   .console ("Output file: " ++ pyOptStr args.output),
   .console ("Continuous monitoring: " ++ pyBool args.continuous),
   .console ("Version: " ++ VERSION)]

/-- `export_to_json`: write the indented object, report success. -/
def export_to_json (data : Record) (output_file : String) (mode : Char) :
    List Event :=
  [.fileWrite output_file mode (jsonDumpsIndent data),
   .console ("Data exported to " ++ output_file ++ " successfully.")]

/-- `export_to_jsonl`: with a truthy path append one compact line and
report; without one print the compact line to the console. -/
def export_to_jsonl (data : Record) (output : Option String) (mode : Char) :
    List Event :=
  if truthy output then
    match output with
    | some f =>
      [.fileWrite f mode (jsonDumps data ++ "\n"),
       .console ("Appended entry to " ++ f)]
    | none => [.console (jsonDumps data)]
  else
    [.console (jsonDumps data)]

/-- `export_to_xml`: write the fixed non-escaping document, report. -/
def export_to_xml (data : Record) (output_file : String) (mode : Char) :
    List Event :=
  [.fileWrite output_file mode (xmlContent data),
   .console ("Data exported to " ++ output_file ++ " successfully.")]

/-- The message of the dispatcher's fallback branch. -/
def unsupported_msg (f : String) : String :=
  "Unsupported format: " ++ f ++
    ". Supported formats are \x27json\x27, \x27jsonl\x27, and \x27xml\x27."

/-- `output_to_file`: dispatch on `args.format`, honouring Python
truthiness of `args.output`; the final `else` is the fallback branch. -/
def output_to_file (args : Args) (device_info : Record) (mode : Char) :
    List Event :=
  if args.format = "json" then
    if truthy args.output then
      export_to_json device_info (args.output.getD "") mode
    else
      [.console (jsonDumpsIndent device_info)]
  else if args.format = "xml" then
    if truthy args.output then
      export_to_xml device_info (args.output.getD "") mode
    else
      [.console "XML output to console is not supported."]
  else if args.format = "jsonl" then
    export_to_jsonl device_info args.output mode
  else
    [.console (unsupported_msg args.format)]

/-! ### Continuous monitoring -/

/-- The non-first-iteration reduction of `continuous_monitoring`: rebuild
the dictionary from the five disk/timestamp fields of the live record. -/
def delta_projection (live : Record) : Record :=
  [("timestamp_local", live.getV "timestamp_local"),
   ("timestamp_utc", live.getV "timestamp_utc"),
   ("used_disk_space", live.getV "used_disk_space"),
   ("free_disk_space", live.getV "free_disk_space"),
   ("total_disk_space", live.getV "total_disk_space")]

/-- The `while True` loop of `continuous_monitoring`.  `envs n` is the
environment read by iteration `n`; `remaining` counts the iterations that
complete before the user's `KeyboardInterrupt` arrives (the interrupt is
the sole way the loop ends other than an `OSError`, which is caught,
reported, and breaks the loop). -/
def continuous_loop (args : Args) (envs : Nat → Env) :
    Bool → Nat → Nat → List Event
  | _, _, 0 => [.console "\nMonitoring stopped by user."]
  | first_run, idx, remaining + 1 =>
    match get_device_info_extended (envs idx) with
    | .error e => [.console ("Disk access error: " ++ e)]
    | .ok live_info =>
      (if first_run then
        output_to_file args live_info 'w'
      else
        output_to_file args (delta_projection live_info) 'a') ++
      [.console "Monitoring... (Press Ctrl+C to stop)"] ++
      continuous_loop args envs false (idx + 1) remaining

/-- `continuous_monitoring(args)` with the interrupt delivered during the
sleep after `n` completed iterations. -/
def continuous_monitoring (args : Args) (envs : Nat → Env) (n : Nat) :
    List Event :=
  continuous_loop args envs true 0 n

/-! ### Top level: `main()` inside the `__main__` try/except -/

/-- Where the user's interrupt (if any) is delivered: never, while `main`
is doing one-shot work (outside any handler), or during the monitoring
loop after `n` completed iterations. -/
inductive InterruptPoint where
  | none : InterruptPoint
  | duringOneShot : InterruptPoint
  | duringLoop : Nat → InterruptPoint
deriving DecidableEq

/-- Process outcome: a clean return from `main()` (exit status 0) or a
`sys.exit(message)` from the `__main__` handlers (message printed to
stderr, exit status 1). -/
inductive TopOutcome where
  | exit0 : List Event → TopOutcome
  | exitMsg : List Event → String → TopOutcome
deriving DecidableEq

/-- Process exit status of an outcome. -/
def TopOutcome.status : TopOutcome → Nat
  | .exit0 _ => 0
  | .exitMsg _ _ => 1

/-- The events the process emitted. -/
def TopOutcome.events : TopOutcome → List Event
  | .exit0 evs => evs
  | .exitMsg evs _ => evs

/-- The collection `main` performs before dispatching (extended under
`-x`, basic otherwise); an extended collection can raise `OSError`. -/
def collect_main (extra : Bool) (env : Env) : Except String Record :=
  if extra then get_device_info_extended env
  else .ok (get_device_info env)

/-- The whole program: `get_args`, the debug prints and override, the
pre-dispatch collection, then either the monitoring loop or a single
`output_to_file`, all inside the `__main__` `try`/`except` that converts
a top-level `KeyboardInterrupt` or any other exception into
`sys.exit(formatted message)` (exit status 1). -/
def run_program (i : ArgsInput) (env0 : Env) (envs : Nat → Env)
    (ip : InterruptPoint) : TopOutcome :=
  let args0 := get_args i
  let dbg := if args0.debug then debug_mode args0 else []
  let args := main_effective_args i
  match ip with
  | .duringOneShot => .exitMsg dbg "\nProgram interrupted by user: "
  | _ =>
    match collect_main args.extra env0 with
    | .error e => .exitMsg dbg ("\nAn error occurred of type: " ++ e)
    | .ok device_info =>
      if args.continuous then
        let n := match ip with | .duringLoop k => k | _ => 0
        .exit0 (dbg ++ continuous_monitoring args envs n)
      else
        .exit0 (dbg ++ output_to_file args device_info 'w')

/-! ### Observations on event traces -/

/-- Content of file `p` after replaying the write events: `'w'` truncates,
`'a'` appends. -/
def fileContent (p : String) (evs : List Event) : String :=
  evs.foldl (fun acc e =>
    match e with
    | .console _ => acc
    | .fileWrite q mode c =>
      if q = p then (if mode = 'w' then c else acc ++ c) else acc) ""

/-- Does the trace contain any file write at all? -/
def hasFileWrite (evs : List Event) : Bool :=
  evs.any (fun e => match e with | .fileWrite _ _ _ => true | _ => false)

/-- Split a string into its lines: each `'\n'` terminates a line, and a
trailing unterminated fragment counts as a final line. -/
def splitLinesAux : List Char → List Char → List String
  | [], acc => if acc.isEmpty then [] else [String.mk acc.reverse]
  | c :: rest, acc =>
    if c = '\n' then String.mk acc.reverse :: splitLinesAux rest []
    else splitLinesAux rest (c :: acc)

/-- Line decomposition of a string. -/
def splitLines (s : String) : List String :=
  splitLinesAux s.data []

/-- Lines of the file `p` after a trace. -/
def writtenLines (p : String) (evs : List Event) : List String :=
  splitLines (fileContent p evs)

/-! ### Re-extraction of `<key>value</key>` pairs by simple tag matching -/

/-- Simple tag matching on one emitted XML line: skip indentation, read
the tag name up to `>`, read the text up to the closing tag, and check
that the closing tag matches the opening one. -/
def parseTagLine (cs : List Char) : Option (String × String) :=
  match cs.dropWhile (fun c => c = ' ') with
  | '<' :: rest =>
    let key := rest.takeWhile (fun c => c ≠ '>')
    let rest2 := (rest.dropWhile (fun c => c ≠ '>')).tail
    let v := rest2.takeWhile (fun c => c ≠ '<')
    let close := rest2.dropWhile (fun c => c ≠ '<')
    if close = '<' :: '/' :: (key ++ ['>']) then
      some (String.mk key, String.mk v)
    else none
  | _ => none

/-- Simple tag matching on a line given as a string. -/
def parseTagLineStr (s : String) : Option (String × String) :=
  parseTagLine s.data

/-! ### Concrete fixtures for witnesses and counterexamples -/

/-- A concrete environment reading with healthy disk statistics. -/
def envA : Env :=
  { localtime := "2026-01-01 10:00:00"
    gmtime := "2026-01-01 18:00:00"
    node := "testhost"
    system := "Linux"
    release := "6.1.0"
    osver := "#1 SMP"
    fqdn := "testhost.example.com"
    resolveIP := .ok "192.168.1.5"
    diskUsage := fun _ => .ok (1000, 600, 400)
    machine := "x86_64"
    processor := "cpu0"
    pythonVersion := "3.12.1" }

/-- The extended record collected from `envA`. -/
def extRecordA : Record :=
  match get_device_info_extended envA with
  | .ok r => r
  | .error _ => []

/-- The command line of the continuous-monitoring scenario:
`--continuous -o mon.jsonl` (format left at its default). -/
def scenario_input : ArgsInput :=
  { format := "json", output := some "mon.jsonl", extra := false,
    debug := false, continuous := true, positional_output := none }

/-- The events of the scenario run: two completed iterations against
`envA`, then the user's interrupt. -/
def scenario_events : List Event :=
  (run_program scenario_input envA (fun _ => envA) (.duringLoop 2)).events

/-- The configuration `get_args` produces for the scenario command line. -/
def argsScenario : Args :=
  { format := "jsonl", output := some "mon.jsonl", extra := false,
    debug := false, continuous := true, positional_output := none }

/-- A plain one-shot command line (all defaults). -/
def oneShotInputA : ArgsInput :=
  { format := "json", output := none, extra := false, debug := false,
    continuous := false, positional_output := none }

/-- An environment whose hostname resolution yields a loopback address. -/
def envLoop : Env :=
  { envA with resolveIP := .ok "127.0.0.5" }

/-- An environment whose hostname resolution raises. -/
def envRaise : Env :=
  { envA with resolveIP := .error "resolution failed" }

/-- An environment whose disk query raises `OSError`. -/
def envDiskFail : Env :=
  { envA with diskUsage := fun _ => .error "device busy" }

/-- The situation of C6: hostname resolution raised, or it returned a
loopback (`127.`-prefixed) address. -/
def resolution_fallback_applies (env : Env) : Prop :=
  match env.resolveIP with
  | .error _ => True
  | .ok s => pyStartswith s "127." = true

/-- The trust assumption the XML writer works under: tag characters do not
occur in keys or rendered values, and neither contains a newline. -/
def xmlCharsOK (r : Record) : Prop :=
  ∀ kv ∈ r, '>' ∉ kv.1.data ∧ '\n' ∉ kv.1.data ∧
    '<' ∉ (kv.2.render).data ∧ '\n' ∉ (kv.2.render).data

/-- Command line `--continuous -f xml`. -/
def inputContXml : ArgsInput :=
  { format := "xml", output := none, extra := false, debug := false,
    continuous := true, positional_output := none }

/-- Command line `--debug -f xml -o user.xml -x`. -/
def inputDebugXml : ArgsInput :=
  { format := "xml", output := some "user.xml", extra := true, debug := true,
    continuous := false, positional_output := none }

/-- Command line `-x` alone: one-shot extended collection. -/
def inputExtraOneShot : ArgsInput :=
  { format := "json", output := none, extra := true, debug := false,
    continuous := false, positional_output := none }

/-- A supported-format configuration for the dispatcher. -/
def argsJsonA : Args :=
  { format := "json", output := some "out.json", extra := false,
    debug := false, continuous := false, positional_output := none }

/-- A configuration whose format is none of the supported three (only
reachable if the format string were modified after parsing). -/
def argsBadA : Args :=
  { format := "yaml", output := some "out.yaml", extra := false,
    debug := false, continuous := false, positional_output := none }

/-- Iteration environments whose second reading fails on disk access. -/
def envSeqC7 : Nat → Env :=
  fun n => if n = 0 then envA else envDiskFail

/-! ### Key sets of the three record shapes -/

/-- The six keys of a basic snapshot. -/
def basicKeys : List String :=
  ["timestamp_local", "timestamp_utc", "device_name", "os_version",
   "FQDN", "ip_address"]

/-- The twelve keys of an extended snapshot. -/
def extendedKeys : List String :=
  ["timestamp_local", "timestamp_utc", "device_name", "os_version",
   "FQDN", "ip_address", "total_disk_space", "used_disk_space",
   "free_disk_space", "machine", "processor", "python_version"]

/-- The five keys of a continuous-mode delta record. -/
def deltaKeys : List String :=
  ["timestamp_local", "timestamp_utc", "used_disk_space",
   "free_disk_space", "total_disk_space"]

theorem get_device_info_keys (env : Env) :
    (get_device_info env).map Prod.fst = basicKeys := rfl

theorem delta_projection_keys (live : Record) :
    (delta_projection live).map Prod.fst = deltaKeys := rfl

theorem disk_ok_keys (env : Env) (os : String) (d : Record)
    (h : get_disk_usage env os = .ok d) :
    d.map Prod.fst =
      ["total_disk_space", "used_disk_space", "free_disk_space"] := by
  unfold get_disk_usage at h
  dsimp only at h
  split at h
  · exact absurd h (by simp)
  · rw [Except.ok.injEq] at h
    subst h
    rfl

theorem extended_ok_keys (env : Env) (r : Record)
    (h : get_device_info_extended env = .ok r) :
    r.map Prod.fst = extendedKeys := by
  unfold get_device_info_extended at h
  dsimp only at h
  rcases hd : get_disk_usage env (Record.getStr (get_device_info env) "os_version")
    with e | disk
  · rw [hd] at h
    exact absurd h (by simp)
  · rw [hd] at h
    rw [Except.ok.injEq] at h
    subst h
    rw [List.map_append, List.map_append, disk_ok_keys env _ disk hd]
    rfl

/-! ### String plumbing lemmas -/

theorem string_mk_data (s : String) : String.mk s.data = s := by
  cases s
  rfl

theorem head?_append_str (s t : String) (c : Char)
    (h : s.data.head? = some c) : (s ++ t).data.head? = some c := by
  rw [String.data_append]
  cases hs : s.data with
  | nil => rw [hs] at h; exact absurd h (by simp)
  | cons a l => rw [hs] at h; simp at h; simp [hs, h]

theorem string_ne_of_head_ne (s t : String) (c d : Char)
    (hs : s.data.head? = some c) (ht : t.data.head? = some d)
    (h : c ≠ d) : s ≠ t := by
  intro he
  rw [he, ht] at hs
  exact h (Option.some.inj hs.symm)

/-! ### takeWhile / dropWhile over an embedded delimiter -/

theorem takeWhile_append_stop (p : Char → Bool) (l1 : List Char) (b : Char)
    (l2 : List Char) (h1 : ∀ a ∈ l1, p a = true) (h2 : p b = false) :
    (l1 ++ b :: l2).takeWhile p = l1 := by
  induction l1 with
  | nil => simp [List.takeWhile, h2]
  | cons a l ih =>
    have ha : p a = true := h1 a (by simp)
    simp [List.takeWhile, ha]
    exact ih (fun x hx => h1 x (by simp [hx]))

theorem dropWhile_append_stop (p : Char → Bool) (l1 : List Char) (b : Char)
    (l2 : List Char) (h1 : ∀ a ∈ l1, p a = true) (h2 : p b = false) :
    (l1 ++ b :: l2).dropWhile p = b :: l2 := by
  induction l1 with
  | nil => simp [List.dropWhile, h2]
  | cons a l ih =>
    have ha : p a = true := h1 a (by simp)
    simp [List.dropWhile, ha]
    exact ih (fun x hx => h1 x (by simp [hx]))

/-! ### Line splitting -/

theorem splitLinesAux_newline (l : List Char) :
    ∀ (acc rest : List Char), '\n' ∉ l →
    splitLinesAux (l ++ '\n' :: rest) acc =
      String.mk (acc.reverse ++ l) :: splitLinesAux rest [] := by
  induction l with
  | nil =>
    intro acc rest _
    simp [splitLinesAux]
  | cons c l ih =>
    intro acc rest h
    have hc : c ≠ '\n' := fun hc => h (by simp [hc])
    simp only [List.cons_append, splitLinesAux, if_neg hc, List.append_eq]
    rw [ih (c :: acc) rest (fun hm => h (by simp [hm]))]
    simp

theorem splitLines_two (a b : String) (ha : '\n' ∉ a.data)
    (hb : '\n' ∉ b.data) :
    splitLines ((a ++ "\n") ++ (b ++ "\n")) = [a, b] := by
  unfold splitLines
  have hd : ((a ++ "\n") ++ (b ++ "\n")).data =
      a.data ++ '\n' :: (b.data ++ '\n' :: []) := by
    simp [String.data_append]
  rw [hd, splitLinesAux_newline a.data [] _ ha,
    splitLinesAux_newline b.data [] [] hb]
  simp [splitLinesAux, string_mk_data]

theorem splitLines_joinLines (ls : List String)
    (h : ∀ s ∈ ls, '\n' ∉ s.data) :
    splitLines (joinLines ls) = ls := by
  induction ls with
  | nil => rfl
  | cons s ss ih =>
    unfold splitLines at *
    have hd : (joinLines (s :: ss)).data =
        s.data ++ '\n' :: (joinLines ss).data := by
      show ((s ++ "\n") ++ joinLines ss).data = _
      simp [String.data_append]
    rw [hd, splitLinesAux_newline s.data [] _ (h s (by simp))]
    rw [ih (fun x hx => h x (by simp [hx]))]
    simp [string_mk_data]

/-! ### Compact JSON lines never contain a raw newline -/

theorem jsonEscapeChar_no_nl (c : Char) : '\n' ∉ (jsonEscapeChar c).data := by
  unfold jsonEscapeChar
  split
  · decide
  · split
    · decide
    · split
      · decide
      · rename_i h1 h2 h3
        intro hm
        have : '\n' = c := by simpa [String.singleton] using hm
        exact h3 this.symm

theorem jsonEscapeList_no_nl (l : List Char) :
    '\n' ∉ (jsonEscapeList l).data := by
  induction l with
  | nil => decide
  | cons c cs ih =>
    unfold jsonEscapeList
    rw [String.data_append]
    intro hm
    rcases List.mem_append.mp hm with h | h
    · exact jsonEscapeChar_no_nl c h
    · exact ih h

theorem jsonEscape_no_nl (s : String) : '\n' ∉ (jsonEscape s).data :=
  jsonEscapeList_no_nl s.data

theorem natDigitChar_no_nl (d : Nat) (h : d < 10) : natDigitChar d ≠ '\n' := by
  interval_cases d <;> decide

theorem natToDigitsAux_no_nl (fuel : Nat) :
    ∀ n, '\n' ∉ natToDigitsAux fuel n := by
  induction fuel with
  | zero => intro n; simp [natToDigitsAux]
  | succ m ih =>
    intro n
    unfold natToDigitsAux
    split
    · rename_i h
      intro hm
      have : '\n' = natDigitChar n := by simpa using hm
      exact natDigitChar_no_nl n h this.symm
    · intro hm
      rcases List.mem_append.mp hm with h | h
      · exact ih (n / 10) h
      · have hlt : n % 10 < 10 := Nat.mod_lt _ (by norm_num)
        have : '\n' = natDigitChar (n % 10) := by simpa using h
        exact natDigitChar_no_nl _ hlt this.symm

theorem natRepr_no_nl (n : Nat) : '\n' ∉ (natRepr n).data :=
  natToDigitsAux_no_nl (n + 1) n

theorem jsonValue_no_nl (v : Value) : '\n' ∉ (jsonValue v).data := by
  cases v with
  | str s =>
    show '\n' ∉ (("\"" ++ jsonEscape s) ++ "\"").data
    rw [String.data_append, String.data_append]
    intro hm
    rcases List.mem_append.mp hm with h | h
    · rcases List.mem_append.mp h with h' | h'
      · simp at h'
      · exact jsonEscape_no_nl s h'
    · simp at h
  | num n => exact natRepr_no_nl n

theorem jsonPair_no_nl (kv : String × Value) : '\n' ∉ (jsonPair kv).data := by
  show '\n' ∉ ((("\"" ++ jsonEscape kv.1) ++ "\": ") ++ jsonValue kv.2).data
  rw [String.data_append, String.data_append, String.data_append]
  intro hm
  rcases List.mem_append.mp hm with h | h
  · rcases List.mem_append.mp h with h' | h'
    · rcases List.mem_append.mp h' with h'' | h''
      · simp at h''
      · exact jsonEscape_no_nl kv.1 h''
    · simp at h'
  · exact jsonValue_no_nl kv.2 h

theorem joinComma_no_nl (l : List String) (h : ∀ s ∈ l, '\n' ∉ s.data) :
    '\n' ∉ (joinComma l).data := by
  induction l with
  | nil => decide
  | cons s ss ih =>
    cases ss with
    | nil => simpa [joinComma] using h s (by simp)
    | cons s' rest =>
      show '\n' ∉ ((s ++ ", ") ++ joinComma (s' :: rest)).data
      rw [String.data_append, String.data_append]
      intro hm
      rcases List.mem_append.mp hm with h1 | h1
      · rcases List.mem_append.mp h1 with h2 | h2
        · exact h s (by simp) h2
        · simp at h2
      · exact ih (fun x hx => h x (by simp [hx])) h1

theorem jsonDumps_no_nl (r : Record) : '\n' ∉ (jsonDumps r).data := by
  show '\n' ∉ (("\x7b" ++ joinComma (r.map jsonPair)) ++ "\x7d").data
  rw [String.data_append, String.data_append]
  intro hm
  rcases List.mem_append.mp hm with h | h
  · rcases List.mem_append.mp h with h' | h'
    · simp at h'
    · refine joinComma_no_nl _ ?_ h'
      intro s hs
      rcases List.mem_map.mp hs with ⟨kv, _, hkv⟩
      exact hkv ▸ jsonPair_no_nl kv
  · simp at h

/-! ### XML round trip by simple tag matching -/

theorem parseTagLine_roundtrip (k v : String) (hk : '>' ∉ k.data)
    (hv : '<' ∉ v.data) :
    parseTagLineStr ("    <" ++ k ++ ">" ++ v ++ "</" ++ k ++ ">") =
      some (k, v) := by
  unfold parseTagLineStr
  have hd : ("    <" ++ k ++ ">" ++ v ++ "</" ++ k ++ ">").data =
      ' ' :: ' ' :: ' ' :: ' ' :: '<' ::
        (k.data ++ '>' :: (v.data ++ '<' :: '/' :: (k.data ++ ['>']))) := by
    simp [String.data_append, List.append_assoc]
  rw [hd]
  unfold parseTagLine
  have hdrop : (' ' :: ' ' :: ' ' :: ' ' :: '<' ::
      (k.data ++ '>' :: (v.data ++ '<' :: '/' :: (k.data ++ ['>'])))).dropWhile
        (fun c => decide (c = ' ')) =
      '<' :: (k.data ++ '>' :: (v.data ++ '<' :: '/' :: (k.data ++ ['>']))) := by
    simp [List.dropWhile]
  rw [hdrop]
  have hkey : (k.data ++ '>' :: (v.data ++ '<' :: '/' :: (k.data ++ ['>']))).takeWhile
      (fun c => decide (c ≠ '>')) = k.data :=
    takeWhile_append_stop _ _ _ _
      (fun a ha => by simp only [decide_eq_true_eq]; intro he; exact hk (he ▸ ha))
      (by simp)
  have hrest : (k.data ++ '>' :: (v.data ++ '<' :: '/' :: (k.data ++ ['>']))).dropWhile
      (fun c => decide (c ≠ '>')) =
      '>' :: (v.data ++ '<' :: '/' :: (k.data ++ ['>'])) :=
    dropWhile_append_stop _ _ _ _
      (fun a ha => by simp only [decide_eq_true_eq]; intro he; exact hk (he ▸ ha))
      (by simp)
  have hval : (v.data ++ '<' :: '/' :: (k.data ++ ['>'])).takeWhile
      (fun c => decide (c ≠ '<')) = v.data :=
    takeWhile_append_stop _ _ _ _
      (fun a ha => by simp only [decide_eq_true_eq]; intro he; exact hv (he ▸ ha))
      (by simp)
  have hclose : (v.data ++ '<' :: '/' :: (k.data ++ ['>'])).dropWhile
      (fun c => decide (c ≠ '<')) = '<' :: '/' :: (k.data ++ ['>']) :=
    dropWhile_append_stop _ _ _ _
      (fun a ha => by simp only [decide_eq_true_eq]; intro he; exact hv (he ▸ ha))
      (by simp)
  simp only [hkey, hrest, List.tail_cons, hval, hclose, string_mk_data]
  simp

/-! ### The dispatcher and the loop read only `format` and `output` -/

theorem output_to_file_ext (a b : Args) (hf : a.format = b.format)
    (ho : a.output = b.output) (r : Record) (mode : Char) :
    output_to_file a r mode = output_to_file b r mode := by
  unfold output_to_file
  rw [hf, ho]

theorem continuous_loop_ext (a b : Args) (hf : a.format = b.format)
    (ho : a.output = b.output) (envs : Nat → Env) :
    ∀ (m : Nat) (fr : Bool) (idx : Nat),
      continuous_loop a envs fr idx m = continuous_loop b envs fr idx m := by
  intro m
  induction m with
  | zero => intro fr idx; rfl
  | succ m ih =>
    intro fr idx
    unfold continuous_loop
    cases get_device_info_extended (envs idx) with
    | error e => rfl
    | ok live =>
      have h1 := output_to_file_ext a b hf ho live 'w'
      have h2 := output_to_file_ext a b hf ho (delta_projection live) 'a'
      cases fr <;> simp [h1, h2, ih]

/-! ### A disk error ends the monitoring loop at once -/

theorem continuous_loop_error_stop (args : Args) (envs : Nat → Env)
    (e : String) :
    ∀ (k : Nat) (fr : Bool) (idx : Nat),
      (∀ j, j < k → ∃ r, get_device_info_extended (envs (idx + j)) = .ok r) →
      get_device_info_extended (envs (idx + k)) = .error e →
      ∀ m, k < m →
        continuous_loop args envs fr idx m =
          continuous_loop args envs fr idx (k + 1) ∧
        (continuous_loop args envs fr idx m).getLast? =
          some (.console ("Disk access error: " ++ e)) := by
  intro k
  induction k with
  | zero =>
    intro fr idx _ herr m hm
    obtain ⟨m', rfl⟩ : ∃ m', m = m' + 1 := by
      cases m with
      | zero => omega
      | succ m' => exact ⟨m', rfl⟩
    rw [Nat.add_zero] at herr
    constructor
    · show continuous_loop args envs fr idx (m' + 1) =
        continuous_loop args envs fr idx (0 + 1)
      rw [Nat.zero_add]
      unfold continuous_loop
      rw [herr]
    · unfold continuous_loop
      rw [herr]
      rfl
  | succ k ih =>
    intro fr idx hok herr m hm
    obtain ⟨m', rfl⟩ : ∃ m', m = m' + 1 := by
      cases m with
      | zero => omega
      | succ m' => exact ⟨m', rfl⟩
    obtain ⟨r0, hr0⟩ := hok 0 (by omega)
    rw [Nat.add_zero] at hr0
    have hok' : ∀ j, j < k →
        ∃ r, get_device_info_extended (envs ((idx + 1) + j)) = .ok r := by
      intro j hj
      have := hok (j + 1) (by omega)
      rwa [show idx + (j + 1) = idx + 1 + j by omega] at this
    have herr' : get_device_info_extended (envs ((idx + 1) + k)) = .error e := by
      rwa [show idx + (k + 1) = idx + 1 + k by omega] at herr
    have hih := ih false (idx + 1) hok' herr' m' (by omega)
    have hnn : continuous_loop args envs false (idx + 1) m' ≠ [] := by
      intro hnil
      rw [hnil] at hih
      exact absurd hih.2 (by simp)
    constructor
    · show continuous_loop args envs fr idx (m' + 1) =
        continuous_loop args envs fr idx (k + 1 + 1)
      unfold continuous_loop
      rw [hr0, hih.1]
    · unfold continuous_loop
      rw [hr0]
      cases fr <;>
        simp only [if_true, if_false, Bool.false_eq_true, ite_false, ite_true,
          List.append_assoc] <;>
        rw [List.getLast?_append_of_ne_nil _ (by simp [hnn]),
          List.getLast?_append_of_ne_nil _ hnn, hih.2]

/-! ### Projections of `get_args` and `main_effective_args` -/

theorem get_args_debug (i : ArgsInput) : (get_args i).debug = i.debug := rfl

theorem get_args_continuous (i : ArgsInput) :
    (get_args i).continuous = i.continuous := rfl

theorem main_effective_args_of_not_debug (i : ArgsInput)
    (h : i.debug = false) : main_effective_args i = get_args i := by
  unfold main_effective_args
  dsimp only
  rw [get_args_debug, h]
  simp

theorem main_effective_continuous (i : ArgsInput) :
    (main_effective_args i).continuous = i.continuous := by
  unfold main_effective_args
  dsimp only
  rw [get_args_debug]
  cases h : i.debug <;> simp [get_args_continuous]

/-! ### Shape of one `run_program` execution per mode -/

theorem run_oneshot_interrupt (i : ArgsInput) (env0 : Env)
    (envs : Nat → Env) :
    run_program i env0 envs .duringOneShot =
      .exitMsg (if (get_args i).debug then debug_mode (get_args i) else [])
        "\nProgram interrupted by user: " := rfl

theorem run_continuous_events (i : ArgsInput) (env0 : Env)
    (envs : Nat → Env) (n : Nat) (r0 : Record)
    (hdbg : i.debug = false) (hcont : i.continuous = true)
    (hcol : collect_main (main_effective_args i).extra env0 = .ok r0) :
    run_program i env0 envs (.duringLoop n) =
      .exit0 (continuous_monitoring (main_effective_args i) envs n) := by
  have h1 : (get_args i).debug = false := by rw [get_args_debug, hdbg]
  have h2 : (main_effective_args i).continuous = true := by
    rw [main_effective_continuous, hcont]
  simp only [run_program]
  rw [h1, hcol]
  simp [h2]

theorem run_none_ok (i : ArgsInput) (env0 : Env) (envs : Nat → Env)
    (r0 : Record) (hc : i.continuous = false)
    (hcol : collect_main (main_effective_args i).extra env0 = .ok r0) :
    run_program i env0 envs .none =
      .exit0 ((if (get_args i).debug then debug_mode (get_args i) else []) ++
        output_to_file (main_effective_args i) r0 'w') := by
  have h2 : (main_effective_args i).continuous = false := by
    rw [main_effective_continuous, hc]
  simp only [run_program]
  rw [hcol]
  simp [h2]

theorem run_none_error (i : ArgsInput) (env0 : Env) (envs : Nat → Env)
    (e : String)
    (hcol : collect_main (main_effective_args i).extra env0 = .error e) :
    run_program i env0 envs .none =
      .exitMsg (if (get_args i).debug then debug_mode (get_args i) else [])
        ("\nAn error occurred of type: " ++ e) := by
  simp only [run_program]
  rw [hcol]

/-! ### Unfolding one loop iteration -/

theorem continuous_loop_zero (args : Args) (envs : Nat → Env) (fr : Bool)
    (idx : Nat) :
    continuous_loop args envs fr idx 0 =
      [.console "\nMonitoring stopped by user."] := rfl

theorem continuous_loop_step_ok (args : Args) (envs : Nat → Env) (fr : Bool)
    (idx m : Nat) (r : Record)
    (h : get_device_info_extended (envs idx) = .ok r) :
    continuous_loop args envs fr idx (m + 1) =
      (if fr then output_to_file args r 'w'
       else output_to_file args (delta_projection r) 'a') ++
      [.console "Monitoring... (Press Ctrl+C to stop)"] ++
      continuous_loop args envs false (idx + 1) m := by
  conv_lhs => rw [continuous_loop.eq_def]
  dsimp only
  rw [h]

/-- What the scenario configuration makes `output_to_file` do. -/
theorem output_jsonl_monfile (rec : Record) (mode : Char) :
    output_to_file argsScenario rec mode =
      [.fileWrite "mon.jsonl" mode (jsonDumps rec ++ "\n"),
       .console "Appended entry to mon.jsonl"] := by
  simp [output_to_file, export_to_jsonl, argsScenario, truthy]

/-! ### First characters, to tell console messages apart -/

theorem unsupported_msg_head (f : String) :
    (unsupported_msg f).data.head? = some 'U' :=
  head?_append_str _ _ _ (head?_append_str _ _ _ rfl)

theorem jsonDumps_head (r : Record) :
    (jsonDumps r).data.head? = some '\x7b' :=
  head?_append_str _ _ _ (head?_append_str _ _ _ rfl)

theorem jsonDumpsIndent_head (r : Record) :
    (jsonDumpsIndent r).data.head? = some '\x7b' := by
  cases r with
  | nil => rfl
  | cons kv rest =>
    exact head?_append_str _ _ _ (head?_append_str _ _ _ rfl)

/-! ## Claim theorems -/

set_option maxRecDepth 100000

/-- C1: for every parsed command line in which the continuous flag is set,
the configuration returned by argument parsing has format `"jsonl"`,
whatever `-f`/`--format` value the user supplied. -/
theorem C1_continuous_forces_jsonl (i : ArgsInput) (h : i.continuous = true) :
    (get_args i).format = "jsonl" := by
  unfold get_args
  dsimp only
  rw [h]
  simp [strLower]

/-- Witness for C1: `--continuous -f xml` still parses to format jsonl. -/
theorem C1_witness : (get_args inputContXml).format = "jsonl" :=
  C1_continuous_forces_jsonl inputContXml rfl

/-- C2: for every parsed command line with the debug flag set, the
configuration in force from the first collection or write on (the one
`main` hands to the collector and the dispatcher) has output
`debug_output.json` and format `json`, overriding any user-supplied
`-f`/`-o` value. -/
theorem C2_debug_overrides (i : ArgsInput) (h : i.debug = true) :
    (main_effective_args i).output = some "debug_output.json" ∧
    (main_effective_args i).format = "json" := by
  unfold main_effective_args
  dsimp only
  rw [get_args_debug, h]
  simp

/-- Witness for C2: `--debug -f xml -o user.xml` is overridden. -/
theorem C2_witness :
    (main_effective_args inputDebugXml).output = some "debug_output.json" ∧
    (main_effective_args inputDebugXml).format = "json" :=
  C2_debug_overrides inputDebugXml rfl

/-- C3 counterexample: at a concrete healthy environment the extended
collector does produce a snapshot, but its key set contains
`python_version` and no `runtime_version`, so the key set is not the one
the claim lists. -/
theorem C3_counterexample :
    get_device_info_extended envA = .ok extRecordA ∧
    "runtime_version" ∉ extRecordA.map Prod.fst ∧
    "python_version" ∈ extRecordA.map Prod.fst := by
  refine ⟨rfl, by decide, by decide⟩

/-- C3 (amended): every successful extended collection yields a snapshot
whose key list is exactly the six basic keys followed by
`total_disk_space`, `used_disk_space`, `free_disk_space`, `machine`,
`processor`, and `python_version` (not `runtime_version`). -/
theorem C3_extended_keys (env : Env) (r : Record)
    (h : get_device_info_extended env = .ok r) :
    r.map Prod.fst = extendedKeys :=
  extended_ok_keys env r h

/-- Witness for C3 at the concrete environment `envA`. -/
theorem C3_witness : extRecordA.map Prod.fst = extendedKeys :=
  C3_extended_keys envA extRecordA rfl

/-- C6: whenever hostname resolution raises or yields a loopback
(`127.`-prefixed) address, the collected snapshot's `ip_address` field is
the literal `127.0.0.1`; and the basic collector always returns the full
six-field record (its type is total — no resolution error can reach the
caller). -/
theorem C6_ip_fallback (env : Env) (h : resolution_fallback_applies env) :
    Record.getStr (get_device_info env) "ip_address" = "127.0.0.1" ∧
    (get_device_info env).map Prod.fst = basicKeys := by
  refine ⟨?_, rfl⟩
  have hs : Record.getStr (get_device_info env) "ip_address" =
      fallback_ip env.resolveIP := rfl
  rw [hs]
  unfold resolution_fallback_applies at h
  unfold fallback_ip
  rcases hr : env.resolveIP with e | s
  · rfl
  · rw [hr] at h
    simp [h]

/-- Witness for C6 at an environment resolving to `127.0.0.5`. -/
theorem C6_witness :
    Record.getStr (get_device_info envLoop) "ip_address" = "127.0.0.1" ∧
    (get_device_info envLoop).map Prod.fst = basicKeys :=
  C6_ip_fallback envLoop (show pyStartswith "127.0.0.5" "127." = true by decide)

/-- C5 counterexample: at a concrete one-shot command line, an interrupt
delivered during one-shot processing makes the process exit with status 1
(`sys.exit` with a message string), not 0 as the claim states. -/
theorem C5_counterexample :
    ¬(run_program oneShotInputA envA (fun _ => envA) .duringOneShot).status
        = 0 ∧
    (run_program oneShotInputA envA (fun _ => envA) .duringOneShot).status
      = 1 := by
  exact ⟨by decide, by decide⟩

/-- C5 (amended): the exit status is 0 on normal completion (one-shot or
continuous) and on an interrupt caught inside the monitoring loop; it is 1,
with the formatted message of the corresponding handler, when an interrupt
reaches the top level (in particular during one-shot mode) and when an
uncaught exception reaches the top level. -/
theorem C5_exit_codes (i : ArgsInput) (env0 : Env) (envs : Nat → Env) :
    (run_program i env0 envs .duringOneShot).status = 1 ∧
    run_program i env0 envs .duringOneShot =
      .exitMsg (if (get_args i).debug then debug_mode (get_args i) else [])
        "\nProgram interrupted by user: " ∧
    (∀ n r, i.continuous = true → i.debug = false →
      collect_main (main_effective_args i).extra env0 = .ok r →
      (run_program i env0 envs (.duringLoop n)).status = 0) ∧
    (∀ r, i.continuous = false →
      collect_main (main_effective_args i).extra env0 = .ok r →
      (run_program i env0 envs .none).status = 0) ∧
    (∀ e, collect_main (main_effective_args i).extra env0 = .error e →
      (run_program i env0 envs .none).status = 1 ∧
      run_program i env0 envs .none =
        .exitMsg (if (get_args i).debug then debug_mode (get_args i) else [])
          ("\nAn error occurred of type: " ++ e)) := by
  refine ⟨?_, run_oneshot_interrupt i env0 envs, ?_, ?_, ?_⟩
  · rw [run_oneshot_interrupt]
    rfl
  · intro n r hc hd hcol
    rw [run_continuous_events i env0 envs n r hd hc hcol]
    rfl
  · intro r hc hcol
    rw [run_none_ok i env0 envs r hc hcol]
    rfl
  · intro e hcol
    refine ⟨?_, run_none_error i env0 envs e hcol⟩
    rw [run_none_error i env0 envs e hcol]
    rfl

/-- Witness for C5 at concrete runs: a continuous run interrupted in the
loop exits 0, a clean one-shot run exits 0, and a one-shot extended run
whose disk query raises exits 1. -/
theorem C5_witness :
    (run_program scenario_input envA (fun _ => envA) (.duringLoop 1)).status
        = 0 ∧
    (run_program oneShotInputA envA (fun _ => envA) .none).status = 0 ∧
    (run_program inputExtraOneShot envDiskFail (fun _ => envDiskFail)
        .none).status = 1 := by
  refine ⟨(C5_exit_codes scenario_input envA (fun _ => envA)).2.2.1 1
      (get_device_info envA) rfl rfl rfl,
    (C5_exit_codes oneShotInputA envA (fun _ => envA)).2.2.2.1
      (get_device_info envA) rfl rfl,
    ((C5_exit_codes inputExtraOneShot envDiskFail
      (fun _ => envDiskFail)).2.2.2.2 "device busy" rfl).1⟩

/-- C7: if some iteration of the monitoring loop hits a disk-access error
(all earlier iterations having collected successfully), the error is
caught inside the loop, its message is the last thing reported, the loop
performs no further iterations (the trace is the same however much later
the interrupt would have arrived), and the process still exits 0 — the
error is not re-raised. -/
theorem C7_disk_error_stops (i : ArgsInput) (env0 : Env) (envs : Nat → Env)
    (e : String) (k n : Nat) (r0 : Record)
    (hok : ∀ j, j < k → ∃ r, get_device_info_extended (envs j) = .ok r)
    (herr : get_device_info_extended (envs k) = .error e)
    (hn : k < n)
    (hcont : i.continuous = true) (hdbg : i.debug = false)
    (hcol : collect_main (main_effective_args i).extra env0 = .ok r0) :
    continuous_monitoring (main_effective_args i) envs n =
      continuous_monitoring (main_effective_args i) envs (k + 1) ∧
    (continuous_monitoring (main_effective_args i) envs n).getLast? =
      some (.console ("Disk access error: " ++ e)) ∧
    (run_program i env0 envs (.duringLoop n)).status = 0 ∧
    (run_program i env0 envs (.duringLoop n)).events.getLast? =
      some (.console ("Disk access error: " ++ e)) := by
  have hok0 : ∀ j, j < k →
      ∃ r, get_device_info_extended (envs (0 + j)) = .ok r := by
    intro j hj
    rw [Nat.zero_add]
    exact hok j hj
  have herr0 : get_device_info_extended (envs (0 + k)) = .error e := by
    rw [Nat.zero_add]
    exact herr
  have hmain := continuous_loop_error_stop (main_effective_args i) envs e k
    true 0 hok0 herr0 n hn
  have hrun := run_continuous_events i env0 envs n r0 hdbg hcont hcol
  refine ⟨hmain.1, hmain.2, ?_, ?_⟩
  · rw [hrun]
    rfl
  · rw [hrun]
    exact hmain.2

/-- Witness for C7: first iteration healthy, second iteration's disk
query raises, interrupt scheduled far later. -/
theorem C7_witness :
    continuous_monitoring (main_effective_args scenario_input) envSeqC7 5 =
      continuous_monitoring (main_effective_args scenario_input) envSeqC7 2 ∧
    (continuous_monitoring (main_effective_args scenario_input)
        envSeqC7 5).getLast? =
      some (.console ("Disk access error: " ++ "device busy")) ∧
    (run_program scenario_input envA envSeqC7 (.duringLoop 5)).status = 0 ∧
    (run_program scenario_input envA envSeqC7
        (.duringLoop 5)).events.getLast? =
      some (.console ("Disk access error: " ++ "device busy")) := by
  refine C7_disk_error_stops scenario_input envA envSeqC7 "device busy" 1 5
    (get_device_info envA) ?_ rfl (by decide) rfl rfl rfl
  intro j hj
  interval_cases j
  exact ⟨extRecordA, rfl⟩

/-- The fallback message never coincides with an export-success report. -/
theorem unsupported_ne_exported (f g : String) :
    unsupported_msg f ≠ "Data exported to " ++ g ++ " successfully." :=
  string_ne_of_head_ne _ _ 'U' 'D' (unsupported_msg_head f)
    (head?_append_str _ _ _ (head?_append_str _ _ _ rfl)) (by decide)

/-- The fallback message never coincides with a JSONL append report. -/
theorem unsupported_ne_appended (f g : String) :
    unsupported_msg f ≠ "Appended entry to " ++ g :=
  string_ne_of_head_ne _ _ 'U' 'A' (unsupported_msg_head f)
    (head?_append_str _ _ _ rfl) (by decide)

/-- The fallback message never coincides with a compact JSON object. -/
theorem unsupported_ne_jsonDumps (f : String) (r : Record) :
    unsupported_msg f ≠ jsonDumps r :=
  string_ne_of_head_ne _ _ 'U' '\x7b' (unsupported_msg_head f)
    (jsonDumps_head r) (by decide)

/-- The fallback message never coincides with a pretty JSON object. -/
theorem unsupported_ne_jsonIndent (f : String) (r : Record) :
    unsupported_msg f ≠ jsonDumpsIndent r :=
  string_ne_of_head_ne _ _ 'U' '\x7b' (unsupported_msg_head f)
    (jsonDumpsIndent_head r) (by decide)

/-- C8: for every configuration whose format is one of the three values
input validation admits, the dispatcher's fallback branch never runs (its
message is never among the emitted events); for any other format value the
dispatcher emits exactly the unsupported-format message and performs no
file write. -/
theorem C8_dispatcher_fallback (args : Args) (r : Record) (mode : Char) :
    ((args.format = "json" ∨ args.format = "jsonl" ∨ args.format = "xml") →
      Event.console (unsupported_msg args.format) ∉
        output_to_file args r mode) ∧
    (args.format ≠ "json" → args.format ≠ "jsonl" → args.format ≠ "xml" →
      output_to_file args r mode = [.console (unsupported_msg args.format)] ∧
      hasFileWrite (output_to_file args r mode) = false) := by
  constructor
  · intro hf hmem
    unfold output_to_file export_to_json export_to_jsonl export_to_xml
      at hmem
    rcases hf with h | h | h
    · rw [h] at hmem
      by_cases hT : truthy args.output = true
      · simp [hT] at hmem
        exact unsupported_ne_exported "json" (args.output.getD "") hmem
      · simp [hT] at hmem
        exact unsupported_ne_jsonIndent "json" r hmem
    · rw [h] at hmem
      by_cases hT : truthy args.output = true
      · rcases ho : args.output with _ | f
        · rw [ho] at hT
          exact absurd hT (by decide)
        · rw [ho] at hmem hT
          simp [hT] at hmem
          exact unsupported_ne_appended "jsonl" f hmem
      · simp [hT] at hmem
        exact unsupported_ne_jsonDumps "jsonl" r hmem
    · rw [h] at hmem
      by_cases hT : truthy args.output = true
      · simp [hT] at hmem
        exact unsupported_ne_exported "xml" (args.output.getD "") hmem
      · simp [hT] at hmem
        exact absurd hmem (by decide)
  · intro h1 h2 h3
    unfold output_to_file
    rw [if_neg h1, if_neg h3, if_neg h2]
    exact ⟨rfl, rfl⟩

/-- Witness for C8: a supported format never hits the fallback; a
corrupted format string hits exactly the fallback and writes nothing. -/
theorem C8_witness :
    Event.console (unsupported_msg "json") ∉
      output_to_file argsJsonA (get_device_info envA) 'w' ∧
    output_to_file argsBadA (get_device_info envA) 'w' =
      [.console (unsupported_msg "yaml")] ∧
    hasFileWrite (output_to_file argsBadA (get_device_info envA) 'w')
      = false := by
  refine ⟨(C8_dispatcher_fallback argsJsonA (get_device_info envA) 'w').1
      (Or.inl rfl),
    ((C8_dispatcher_fallback argsBadA (get_device_info envA) 'w').2
      (by decide) (by decide) (by decide)).1,
    ((C8_dispatcher_fallback argsBadA (get_device_info envA) 'w').2
      (by decide) (by decide) (by decide)).2⟩

/-- A field line contains no newline when its key and rendered value
contain none. -/
theorem xmlFieldLine_no_nl (kv : String × Value) (hk1nl : '\n' ∉ kv.1.data)
    (h2 : '\n' ∉ kv.2.render.data) : '\n' ∉ (xmlFieldLine kv).data := by
  show '\n' ∉
    ((((("    <" ++ kv.1) ++ ">") ++ kv.2.render) ++ "</") ++ kv.1 ++ ">").data
  simp only [String.data_append]
  intro hm
  simp only [List.mem_append] at hm
  rcases hm with (((((hm | hm) | hm) | hm) | hm) | hm) | hm
  · simp at hm
  · exact hk1nl hm
  · simp at hm
  · exact h2 hm
  · simp at hm
  · exact hk1nl hm
  · simp at hm

/-- C9: the XML exporter writes the document consisting of the line
`<device_info>`, one `    <key>value</key>` line per field in insertion
order with no character escaping, and `</device_info>`; under the trust
assumption on record characters, re-extracting the pairs from those lines
by simple tag matching recovers exactly the keys and stringified values of
the source mapping. -/
theorem C9_xml_roundtrip (r : Record) (f : String) (mode : Char)
    (h : xmlCharsOK r) :
    export_to_xml r f mode =
      [.fileWrite f mode (xmlContent r),
       .console ("Data exported to " ++ f ++ " successfully.")] ∧
    splitLines (xmlContent r) =
      "<device_info>" :: r.map xmlFieldLine ++ ["</device_info>"] ∧
    (r.map xmlFieldLine).map parseTagLineStr =
      r.map (fun kv => some (kv.1, kv.2.render)) := by
  refine ⟨rfl, ?_, ?_⟩
  · unfold xmlContent
    apply splitLines_joinLines
    intro s hs
    rcases List.mem_cons.mp hs with hs | hs
    · subst hs
      decide
    · rcases List.mem_append.mp hs with hs | hs
      · rcases List.mem_map.mp hs with ⟨kv, hkv, rfl⟩
        obtain ⟨_, hk2, _, hv2⟩ := h kv hkv
        exact xmlFieldLine_no_nl kv hk2 hv2
      · simp only [List.mem_singleton] at hs
        subst hs
        decide
  · rw [List.map_map]
    apply List.map_congr_left
    intro kv hkv
    obtain ⟨hk1, _, hv1, _⟩ := h kv hkv
    exact parseTagLine_roundtrip kv.1 kv.2.render hk1 hv1

/-- Witness for C9 at the concrete extended record collected from `envA`,
whose keys and values contain no markup characters. -/
theorem C9_witness :
    export_to_xml extRecordA "info.xml" 'w' =
      [.fileWrite "info.xml" 'w' (xmlContent extRecordA),
       .console ("Data exported to " ++ "info.xml" ++ " successfully.")] ∧
    splitLines (xmlContent extRecordA) =
      "<device_info>" :: extRecordA.map xmlFieldLine ++ ["</device_info>"] ∧
    (extRecordA.map xmlFieldLine).map parseTagLineStr =
      extRecordA.map (fun kv => some (kv.1, kv.2.render)) :=
  C9_xml_roundtrip extRecordA "info.xml" 'w' (by unfold xmlCharsOK; decide)

/-- C10 counterexample: the claimed independence is not unconditional.
With identical environment readings — the pre-loop disk query fails, the
loop iterations' queries succeed — the run with the extra flag set aborts
on the discarded pre-loop collection before the loop (no writes, exit 1),
while the run without it proceeds and writes `mon.jsonl`: the run
outcomes, and the output-file contents in particular, differ. -/
theorem C10_counterexample :
    ¬(run_program { scenario_input with extra := true } envDiskFail
        (fun _ => envA) (.duringLoop 2) =
      run_program { scenario_input with extra := false } envDiskFail
        (fun _ => envA) (.duringLoop 2)) ∧
    ¬(fileContent "mon.jsonl"
        (run_program { scenario_input with extra := true } envDiskFail
          (fun _ => envA) (.duringLoop 2)).events =
      fileContent "mon.jsonl"
        (run_program { scenario_input with extra := false } envDiskFail
          (fun _ => envA) (.duringLoop 2)).events) ∧
    (run_program { scenario_input with extra := true } envDiskFail
      (fun _ => envA) (.duringLoop 2)).status = 1 ∧
    hasFileWrite (run_program { scenario_input with extra := true } envDiskFail
      (fun _ => envA) (.duringLoop 2)).events = false := by
  exact ⟨by decide, by decide, by decide, by decide⟩

/-- C10 (amended): in continuous mode (debug being excluded by the
parser), provided the discarded pre-loop collection succeeds — which is
automatic without the extra flag, and fails with it only when the disk
query raises — the whole observable outcome of the run, in particular
everything written to the output file, is independent of the extra flag:
the snapshot `main` collects before the loop is discarded unused, and
every loop iteration performs its own extended collection. -/
theorem C10_extra_flag_irrelevant (i : ArgsInput) (env0 : Env)
    (envs : Nat → Env) (n : Nat) (r0 : Record)
    (hcont : i.continuous = true) (hdbg : i.debug = false)
    (hcol : get_device_info_extended env0 = .ok r0) :
    run_program { i with extra := true } env0 envs (.duringLoop n) =
      run_program { i with extra := false } env0 envs (.duringLoop n) := by
  have hdbg1 : ({ i with extra := true } : ArgsInput).debug = false := hdbg
  have hdbg2 : ({ i with extra := false } : ArgsInput).debug = false := hdbg
  have hme1 : main_effective_args { i with extra := true } =
      get_args { i with extra := true } :=
    main_effective_args_of_not_debug _ hdbg1
  have hme2 : main_effective_args { i with extra := false } =
      get_args { i with extra := false } :=
    main_effective_args_of_not_debug _ hdbg2
  have hcol1 : collect_main
      (main_effective_args { i with extra := true }).extra env0 = .ok r0 := by
    rw [hme1]
    show collect_main true env0 = .ok r0
    unfold collect_main
    simpa using hcol
  have hcol2 : collect_main
      (main_effective_args { i with extra := false }).extra env0 =
      .ok (get_device_info env0) := by
    rw [hme2]
    rfl
  rw [run_continuous_events _ env0 envs n r0 hdbg1 hcont hcol1,
    run_continuous_events _ env0 envs n (get_device_info env0) hdbg2 hcont
      hcol2]
  have hf : (main_effective_args { i with extra := true }).format =
      (main_effective_args { i with extra := false }).format := by
    rw [hme1, hme2]
    rfl
  have ho : (main_effective_args { i with extra := true }).output =
      (main_effective_args { i with extra := false }).output := by
    rw [hme1, hme2]
    rfl
  exact congrArg TopOutcome.exit0
    (continuous_loop_ext _ _ hf ho envs n true 0)

/-- Witness for C10 at the scenario command line and environment. -/
theorem C10_witness :
    run_program { scenario_input with extra := true } envA (fun _ => envA)
        (.duringLoop 2) =
      run_program { scenario_input with extra := false } envA (fun _ => envA)
        (.duringLoop 2) :=
  C10_extra_flag_irrelevant scenario_input envA (fun _ => envA) 2 extRecordA
    rfl rfl rfl

/-- C4 counterexample: in the concrete scenario run (`--continuous -o
mon.jsonl`, two iterations, then interrupt) the file does hold exactly the
two expected records, but the first line's object has 12 keys, not the 11
the claim states. -/
theorem C4_counterexample :
    writtenLines "mon.jsonl" scenario_events =
      [jsonDumps extRecordA, jsonDumps (delta_projection extRecordA)] ∧
    (extRecordA.map Prod.fst).length = 12 ∧
    ¬(extRecordA.map Prod.fst).length = 11 := by
  exact ⟨by decide, by decide, by decide⟩

/-- C4 (amended): in continuous mode with output `mon.jsonl`, running for
two sleep intervals and interrupting yields a file of exactly two
newline-terminated lines; line 1 is the compact JSON object of the full
extended snapshot (12 keys: the six basic keys, the three disk keys,
`machine`, `processor`, `python_version`), line 2 is the compact JSON
object of the 5-key delta record, the process prints the
"stopped by user" notice and exits with status 0. -/
theorem C4_continuous_scenario (env0 : Env) (envs : Nat → Env)
    (r0 r1 : Record)
    (h0 : get_device_info_extended (envs 0) = .ok r0)
    (h1 : get_device_info_extended (envs 1) = .ok r1) :
    (run_program scenario_input env0 envs (.duringLoop 2)).status = 0 ∧
    Event.console "\nMonitoring stopped by user." ∈
      (run_program scenario_input env0 envs (.duringLoop 2)).events ∧
    fileContent "mon.jsonl"
        (run_program scenario_input env0 envs (.duringLoop 2)).events =
      (jsonDumps r0 ++ "\n") ++ (jsonDumps (delta_projection r1) ++ "\n") ∧
    writtenLines "mon.jsonl"
        (run_program scenario_input env0 envs (.duringLoop 2)).events =
      [jsonDumps r0, jsonDumps (delta_projection r1)] ∧
    r0.map Prod.fst = extendedKeys ∧
    (delta_projection r1).map Prod.fst = deltaKeys := by
  have hma : main_effective_args scenario_input = argsScenario := by decide
  have hrun := run_continuous_events scenario_input env0 envs 2
    (get_device_info env0) rfl rfl (by rw [hma]; rfl)
  rw [hma] at hrun
  have e1 : continuous_loop argsScenario envs true 0 2 =
      output_to_file argsScenario r0 'w' ++
      [.console "Monitoring... (Press Ctrl+C to stop)"] ++
      continuous_loop argsScenario envs false 1 1 :=
    continuous_loop_step_ok argsScenario envs true 0 1 r0 h0
  have e2 : continuous_loop argsScenario envs false 1 1 =
      output_to_file argsScenario (delta_projection r1) 'a' ++
      [.console "Monitoring... (Press Ctrl+C to stop)"] ++
      [.console "\nMonitoring stopped by user."] :=
    continuous_loop_step_ok argsScenario envs false 1 0 r1 h1
  have hloop : continuous_monitoring argsScenario envs 2 =
      [.fileWrite "mon.jsonl" 'w' (jsonDumps r0 ++ "\n"),
       .console "Appended entry to mon.jsonl",
       .console "Monitoring... (Press Ctrl+C to stop)",
       .fileWrite "mon.jsonl" 'a' (jsonDumps (delta_projection r1) ++ "\n"),
       .console "Appended entry to mon.jsonl",
       .console "Monitoring... (Press Ctrl+C to stop)",
       .console "\nMonitoring stopped by user."] := by
    unfold continuous_monitoring
    rw [e1, e2, output_jsonl_monfile r0 'w',
      output_jsonl_monfile (delta_projection r1) 'a']
    simp
  have hevents : (run_program scenario_input env0 envs
      (.duringLoop 2)).events = continuous_monitoring argsScenario envs 2 := by
    rw [hrun]
    rfl
  rw [hevents, hloop]
  have hfc : fileContent "mon.jsonl"
      [Event.fileWrite "mon.jsonl" 'w' (jsonDumps r0 ++ "\n"),
       Event.console "Appended entry to mon.jsonl",
       Event.console "Monitoring... (Press Ctrl+C to stop)",
       Event.fileWrite "mon.jsonl" 'a'
         (jsonDumps (delta_projection r1) ++ "\n"),
       Event.console "Appended entry to mon.jsonl",
       Event.console "Monitoring... (Press Ctrl+C to stop)",
       Event.console "\nMonitoring stopped by user."] =
      (jsonDumps r0 ++ "\n") ++ (jsonDumps (delta_projection r1) ++ "\n") := by
    simp [fileContent, List.foldl]
  refine ⟨by rw [hrun]; rfl, by simp, hfc, ?_, extended_ok_keys (envs 0) r0 h0,
    delta_projection_keys r1⟩
  unfold writtenLines
  rw [hfc]
  exact splitLines_two (jsonDumps r0) (jsonDumps (delta_projection r1))
    (jsonDumps_no_nl r0) (jsonDumps_no_nl (delta_projection r1))

/-- Witness for C4 at the concrete environment `envA`. -/
theorem C4_witness :
    (run_program scenario_input envA (fun _ => envA) (.duringLoop 2)).status
        = 0 ∧
    Event.console "\nMonitoring stopped by user." ∈
      (run_program scenario_input envA (fun _ => envA)
        (.duringLoop 2)).events ∧
    fileContent "mon.jsonl"
        (run_program scenario_input envA (fun _ => envA)
          (.duringLoop 2)).events =
      (jsonDumps extRecordA ++ "\n") ++
        (jsonDumps (delta_projection extRecordA) ++ "\n") ∧
    writtenLines "mon.jsonl"
        (run_program scenario_input envA (fun _ => envA)
          (.duringLoop 2)).events =
      [jsonDumps extRecordA, jsonDumps (delta_projection extRecordA)] ∧
    extRecordA.map Prod.fst = extendedKeys ∧
    (delta_projection extRecordA).map Prod.fst = deltaKeys :=
  C4_continuous_scenario envA (fun _ => envA) extRecordA extRecordA rfl rfl

end DeviceInfo
